import Mathlib

/-!
Shallow embedding of the AI-driven DevOps incident-resolution platform's
incident-analysis pipeline, translated from the Python sources:

* `vector-db/faiss_index.py` — `VectorSearch.find_similar_incidents`
* `llm/anamoly detection/anomaly_detection.py` — `AnomalyPredictor`
  (`_prepare_features`, `predict`, `_get_recommendation`)
* `llm/rca_agent.py` — `RCAAgent.analyze` and `RCAAgent._prepare_context`
* `api/ai_engine_main.py` — the `analyze_incident` orchestration endpoint

Real numbers from the Python code are modelled as rationals; Python dicts
are modelled as association lists with `List.lookup` semantics for `.get`;
Python exceptions are modelled with `Except`.  External collaborators
(the fitted scikit-learn model, the scaler, `json.dumps`, the reasoning
service, the fix generator) are passed in as explicit function or
`Except`-valued arguments, exactly at the call sites where the Python
code invokes them.
-/

namespace AIOps

/-! ### Vector search — `faiss_index.py` -/

/-- One similar-incident match, the dict shape returned by
`VectorSearch.find_similar_incidents`. -/
structure SimilarIncident where
  incident_id : String
  root_cause : String
  similarity : ℚ
deriving DecidableEq, Repr

/-- `VectorSearch.find_similar_incidents(service, logs, top_k)`
(faiss_index.py lines 23–38).  The Python body ignores every argument and
the index state and returns a hardcoded single-element list. -/
def find_similar_incidents (service : String) (logs : List String)
    (top_k : Int) : List SimilarIncident :=
  [{ incident_id := "INC-2024-100"
     root_cause := "Memory leak in service"
     similarity := 89/100 }]

/-! ### Anomaly detection — `anomaly_detection.py` -/

/-- Python `metric.get(key, default)` on a metrics dict, modelled as an
association list. -/
def metricGet (m : List (String × ℚ)) (k : String) (d : ℚ) : ℚ :=
  (m.lookup k).getD d

/-- One row of `AnomalyPredictor._prepare_features`: the literal
seven-entry feature list built from one metrics dict, absent keys
substituting 0.  No clamping is performed here. -/
def featureVector (m : List (String × ℚ)) : List ℚ :=
  [metricGet m "cpu_usage" 0,
   metricGet m "memory_usage" 0,
   metricGet m "response_time" 0,
   metricGet m "error_rate" 0,
   metricGet m "request_rate" 0,
   metricGet m "network_rx" 0,
   metricGet m "network_tx" 0]

/-- One metric sample fetched for a timestamp: the dict produced per data
point by `_fetch_metrics` (a `timestamp` entry plus named numeric
metrics). -/
structure MetricSample where
  timestamp : Nat
  data : List (String × ℚ)
deriving DecidableEq, Repr

/-- `AnomalyPredictor._prepare_features(metrics_data)`: one feature row
per metric sample, in order. -/
def prepare_features (mdata : List MetricSample) : List (List ℚ) :=
  mdata.map (fun m => featureVector m.data)

/-- Fixed message returned when `is_anomaly` is false. -/
def noActionMsg : String := "No action required - metrics within normal range"

/-- Recommendation for the `cpu_usage > 80` branch. -/
def cpuMsg : String := "High CPU detected - consider scaling horizontally"

/-- Recommendation for the `memory_usage > 85` branch. -/
def memMsg : String :=
  "High memory usage - check for memory leaks or increase limits"

/-- Recommendation for the `response_time > 1000` branch. -/
def rtMsg : String :=
  "Elevated response time - investigate database queries or external API calls"

/-- Recommendation for the `error_rate > 0.05` branch. -/
def errMsg : String := "High error rate - check application logs for exceptions"

/-- Fallback when anomalous but no threshold branch fired. -/
def fallbackMsg : String := "Anomaly detected - manual investigation recommended"

/-- The `recommendations` list accumulated by
`AnomalyPredictor._get_recommendation` in its four threshold branches,
in source order. -/
def recommendationsFor (m : List (String × ℚ)) : List String :=
  (if 80 < metricGet m "cpu_usage" 0 then [cpuMsg] else []) ++
    ((if 85 < metricGet m "memory_usage" 0 then [memMsg] else []) ++
      ((if 1000 < metricGet m "response_time" 0 then [rtMsg] else []) ++
        (if 5/100 < metricGet m "error_rate" 0 then [errMsg] else [])))

/-- `AnomalyPredictor._get_recommendation(is_anomaly, metrics)`
(anomaly_detection.py lines 128–149). -/
def get_recommendation (is_anomaly : Bool) (m : List (String × ℚ)) : String :=
  if !is_anomaly then noActionMsg
  else
    let recs := recommendationsFor m
    if recs.isEmpty then fallbackMsg else String.intercalate " | " recs

/-- One result dict appended by `AnomalyPredictor.predict` per data
point. -/
structure AnomalyVerdict where
  timestamp : Nat
  is_anomaly : Bool
  score : ℚ
  confidence : ℚ
  metrics : MetricSample
  recommendation : String
deriving DecidableEq, Repr

/-- The result dict built in the loop body of `AnomalyPredictor.predict`:
`is_anomaly = pred == -1`, `confidence = abs(score)`, plus the
recommendation. -/
def mkVerdict (m : MetricSample) (pred : Int) (score : ℚ) : AnomalyVerdict :=
  { timestamp := m.timestamp
    is_anomaly := pred == -1
    score := score
    confidence := |score|
    metrics := m
    recommendation := get_recommendation (pred == -1) m.data }

/-- The scoring part of `AnomalyPredictor.predict` (anomaly_detection.py
lines 34–66), as a function of the fetched metric data.  The fitted
scaler (`self.scaler.transform`), the fitted model's label function
(`self.model.predict`, per row) and score function
(`self.model.score_samples`, per row) are passed in explicitly; the code
applies them to the prepared feature rows and zips the results with the
metric samples. -/
def predictOn (scaler : List ℚ → List ℚ) (label : List ℚ → Int)
    (score_samples : List ℚ → ℚ) (mdata : List MetricSample) :
    List AnomalyVerdict :=
  let features := prepare_features mdata
  let features_scaled := features.map scaler
  let predictions := features_scaled.map label
  let anomaly_scores := features_scaled.map score_samples
  (mdata.zip (predictions.zip anomaly_scores)).map
    (fun p => mkVerdict p.1 p.2.1 p.2.2)

/-! ### RCA agent — `rca_agent.py` -/

/-- A reasoning-service reply that parsed as a JSON object
(`json.loads(response.choices[0].message.content)`), with each field the
agent later reads modelled as possibly absent (Python `dict.get` with a
default). -/
structure ReasoningReply where
  root_cause : Option String
  severity : Option String
  confidence : Option ℚ
  impact_assessment : Option String
  contributing_factors : Option (List String)
  timeline : Option (List (String × String))
  recommendations : Option (List String)
deriving DecidableEq, Repr

/-- The dict returned by `RCAAgent.analyze`. -/
structure RCAResult where
  root_cause : String
  severity : String
  confidence : ℚ
  impact : String
  contributing_factors : List String
  timeline : List (String × String)
  recommendations : List String
deriving DecidableEq, Repr

/-- The defaulting step of `RCAAgent.analyze` (rca_agent.py lines 60–70):
`result.get(field, default)` for each returned field.  The values of
present fields pass through unchanged. -/
def validateReply (r : ReasoningReply) : RCAResult :=
  { root_cause := r.root_cause.getD "Unknown"
    severity := r.severity.getD "medium"
    confidence := r.confidence.getD 0
    impact := r.impact_assessment.getD "Unknown impact"
    contributing_factors := r.contributing_factors.getD []
    timeline := r.timeline.getD []
    recommendations := r.recommendations.getD [] }

/-- `RCAAgent.analyze` as a function of the outcome of the external
reasoning call: an exception from the client call, a timeout, or a
`json.loads` failure is the `Except.error` case; a parsed JSON reply is
`Except.ok` and is passed through the field-defaulting step. -/
def rcaAnalyze (callResult : Except String ReasoningReply) :
    Except String RCAResult :=
  callResult.map validateReply

/-- Python `logs[-50:]`: the last `n` elements of a list. -/
def lastN (n : Nat) (l : List α) : List α := l.drop (l.length - n)

/-- The similar-incident bullet line
`f"- **{inc.get('incident_id')}**: {inc.get('root_cause')}"`. -/
def similarLine (inc : SimilarIncident) : String :=
  "- **" ++ inc.incident_id ++ "**: " ++ inc.root_cause

/-- The metrics block of `RCAAgent._prepare_context`:
`"## METRICS"`, a json code fence, `json.dumps(metrics, indent=2)`.
`json.dumps` is an external library function, passed in as `dm`. -/
def metricsSection {μ : Type} (dm : μ → String) (metrics : μ) : List String :=
  ["## METRICS", "```json", dm metrics, "```"]

/-- The log block of `RCAAgent._prepare_context`: the last 50 log lines
inside a code fence. -/
def logsSection (logs : List String) : List String :=
  ["\n## RECENT LOGS", "```"] ++ (lastN 50 logs ++ ["```"])

/-- The trace block of `RCAAgent._prepare_context`: emitted only when
`traces` is truthy (present and non-empty), serializing `traces[:10]`
with the external `json.dumps` (passed in as `dt`). -/
def tracesSection {τ : Type} (dt : List τ → String) :
    Option (List τ) → List String
  | none => []
  | some ts =>
    if ts.isEmpty then []
    else ["\n## DISTRIBUTED TRACES", "```json", dt (ts.take 10), "```"]

/-- The similar-incidents block of `RCAAgent._prepare_context`: emitted
only when `similar_incidents` is truthy, one bullet line per incident in
`similar_incidents[:3]`. -/
def similarSection : Option (List SimilarIncident) → List String
  | none => []
  | some ss =>
    if ss.isEmpty then []
    else "\n## SIMILAR PAST INCIDENTS" :: (ss.take 3).map similarLine

/-- The `context_parts` list accumulated by `RCAAgent._prepare_context`
(rca_agent.py lines 116–155), in source order. -/
def prepareContextParts {μ τ : Type} (dm : μ → String) (dt : List τ → String)
    (metrics : μ) (logs : List String) (traces : Option (List τ))
    (similar_incidents : Option (List SimilarIncident)) : List String :=
  metricsSection dm metrics ++
    (logsSection logs ++
      (tracesSection dt traces ++ similarSection similar_incidents))

/-- `RCAAgent._prepare_context`: `"\n".join(context_parts)`. -/
def prepare_context {μ τ : Type} (dm : μ → String) (dt : List τ → String)
    (metrics : μ) (logs : List String) (traces : Option (List τ))
    (similar_incidents : Option (List SimilarIncident)) : String :=
  String.intercalate "\n"
    (prepareContextParts dm dt metrics logs traces similar_incidents)

/-! ### Orchestration endpoint — `ai_engine_main.py` -/

/-- The `IncidentAnalysisRequest` model fields used by
`analyze_incident`. -/
structure AnalyzeRequest where
  incident_id : String
  timestamp : Nat
  service_name : String
  metrics : List (String × ℚ)
  logs : List String
  traces : Option (List (List (String × String)))
  severity : String
deriving DecidableEq, Repr

/-- The dict returned by `fix_generator.generate_fix`. -/
structure FixCode where
  fix_details : List (String × String)
  code : String
deriving DecidableEq, Repr

/-- A FastAPI `HTTPException` as raised by the endpoint handlers: a
status code and a free-text detail string. -/
structure HTTPExc where
  status : Nat
  detail : String
deriving DecidableEq, Repr

/-- One timeline entry `{"time": ..., "event": ...}`. -/
structure TimelineEvent where
  time : Nat
  event : String
deriving DecidableEq, Repr

/-- The `IncidentAnalysisResponse` model. -/
structure AnalyzeResponse where
  incident_id : String
  root_cause : String
  severity : String
  confidence : ℚ
  impact_assessment : String
  recommended_fix : List (String × String)
  generated_code : String
  similar_incidents : List SimilarIncident
  timeline : List TimelineEvent
deriving DecidableEq, Repr

/-- The data handed to the background `vector_search.store_incident`
task (the only persistence of an incident record in the handler). -/
structure StoredIncident where
  incident_id : String
  service : String
  root_cause : String
  logs : List String
deriving DecidableEq, Repr

/-- The generic error raised by the endpoint's `except Exception` block:
`HTTPException(status_code=500, detail=f"Analysis failed: {str(e)}")`. -/
def analysisFailed (e : String) : HTTPExc :=
  { status := 500, detail := "Analysis failed: " ++ e }

/-- `analyze_incident` (ai_engine_main.py lines 92–152) as a function of
the external outcomes: `reasoning` is the outcome of the reasoning call
inside `rca_agent.analyze`, and `fixGen` is
`fix_generator.generate_fix(root_cause, service_name, severity)`.
Returns the endpoint's result (response or the generic 500
`HTTPException`) paired with the list of incident records scheduled for
background persistence. -/
def analyze_incident (req : AnalyzeRequest) (now : Nat)
    (reasoning : Except String ReasoningReply)
    (fixGen : String → String → String → Except String FixCode) :
    Except HTTPExc AnalyzeResponse × List StoredIncident :=
  let similar := find_similar_incidents req.service_name (req.logs.take 10) 3
  match rcaAnalyze reasoning with
  | .error e => (.error (analysisFailed e), [])
  | .ok rca =>
    match fixGen rca.root_cause req.service_name rca.severity with
    | .error e => (.error (analysisFailed e), [])
    | .ok fix_code =>
      (.ok { incident_id := req.incident_id
             root_cause := rca.root_cause
             severity := rca.severity
             confidence := rca.confidence
             impact_assessment := rca.impact
             recommended_fix := fix_code.fix_details
             generated_code := fix_code.code
             similar_incidents := similar
             timeline := [{ time := req.timestamp, event := "Incident detected" },
                          { time := now, event := "RCA completed" },
                          { time := now, event := "Fix generated" }] },
       [{ incident_id := req.incident_id
          service := req.service_name
          root_cause := rca.root_cause
          logs := req.logs }])

/-! ### Remediation generator (spec-modelled) -/

/-- The remediation mode reported in a RemediationArtifact. -/
inductive RemediationMode where
  | applied
  | pending_approval
deriving DecidableEq, Repr

/-- Modelled from the spec: the `RemediationArtifact` produced by the
Remediation Generator (`FixGenerator`), whose implementation is not in
the sources (only its call sites in `ai_engine_main.py` are):
`\x7bfix_details: mapping, code: string, mode: enum\x7bapplied,
pending_approval\x7d\x7d`. -/
structure RemediationArtifact where
  fix_details : List (String × String)
  code : String
  mode : RemediationMode
deriving DecidableEq, Repr

/-- Modelled from the spec: the Remediation Generator's observable state
— a memo cache keyed by `(incident_id, fix_type)` plus the log of
side-effect executions, used to express that `apply` re-executes no side
effect on a repeated key. -/
structure FixGeneratorState where
  cache : List ((String × String) × RemediationArtifact)
  side_effects : List (String × String)
deriving DecidableEq, Repr

/-- Modelled from the spec: the artifact freshly produced for a key on
first application (deterministic in the key; its exact contents are not
specified beyond the `RemediationArtifact` shape). -/
def makeArtifact (incident_id fix_type : String) : RemediationArtifact :=
  { fix_details := [("incident_id", incident_id), ("fix_type", fix_type)]
    code := "remediation for " ++ incident_id ++ " / " ++ fix_type
    mode := RemediationMode.applied }

/-- Modelled from the spec: `FixGenerator.apply_fix(incident_id,
fix_type)`, absent from the sources.  Per the spec it "executes
immediately and is idempotent per (incident_id, fix_type): a second call
with the same key returns the cached result without re-executing side
effects"; so it consults the memo cache, and only on a miss executes the
side effect and caches the artifact. -/
def apply_fix (incident_id fix_type : String) (st : FixGeneratorState) :
    RemediationArtifact × FixGeneratorState :=
  match st.cache.lookup (incident_id, fix_type) with
  | some a => (a, st)
  | none =>
    let a := makeArtifact incident_id fix_type
    (a, { cache := ((incident_id, fix_type), a) :: st.cache
          side_effects := (incident_id, fix_type) :: st.side_effects })

/-! ### Shared concrete samples -/

/-- A concrete analysis request used in concrete evaluations. -/
def sampleRequest : AnalyzeRequest :=
  { incident_id := "INC-2024-001"
    timestamp := 0
    service_name := "payment-service"
    metrics := [("cpu_usage", 95)]
    logs := ["OutOfMemoryError: Java heap space"]
    traces := none
    severity := "medium" }

/-- A concrete parsed reasoning reply used in concrete evaluations. -/
def sampleReply : ReasoningReply :=
  { root_cause := some "Memory leak"
    severity := some "high"
    confidence := some (9/10)
    impact_assessment := some "Checkout degraded"
    contributing_factors := some []
    timeline := some []
    recommendations := some [] }

/-- A concrete fix-generator result used in concrete evaluations. -/
def sampleFix : FixCode :=
  { fix_details := [("action", "restart")]
    code := "kubectl rollout restart deploy/payment-service" }

/-- The scenario-A metrics dict from the specification. -/
def scenarioAMetrics : List (String × ℚ) :=
  [("cpu_usage", 95), ("memory_usage", 92), ("response_time", 3500),
   ("error_rate", 12/100)]

/-! ### Claim C1 -/

/-- Claim C1 counterexample: with `top_k = 0` (and likewise on a fresh,
empty index, which `find_similar_incidents` never consults), the query
does not return the empty sequence — it returns the hardcoded match. -/
theorem find_similar_cex :
    find_similar_incidents "payments" ["error log"] 0
      ≠ ([] : List SimilarIncident) := by
  decide

/-- Claim C1 (amended): `find_similar_incidents` is a hardcoded stub: for
every service, log list and `top_k` it returns the same single-element
list (incident INC-2024-100, similarity 0.89), ignoring its arguments and
the index state entirely; in particular `top_k ≤ 0` and an empty index
still yield this one match rather than an empty sequence. -/
theorem find_similar_constant (service : String) (logs : List String)
    (top_k : Int) :
    find_similar_incidents service logs top_k
      = [{ incident_id := "INC-2024-100"
           root_cause := "Memory leak in service"
           similarity := 89/100 }] := rfl

/-! ### Claim C2 -/

/-- Claim C2 counterexample: when the reasoning call fails with
"timeout", `analyze_incident` produces the generic
`HTTPException(500, "Analysis failed: timeout")` — the very same error
value produced when a different stage (fix generation) fails with the
same message — so the failure is not a reasoning-specific typed
`ReasoningUnavailableError`.  (No incident record is persisted, which is
the part of the claim that does hold.) -/
theorem analyze_error_untyped_cex :
    (analyze_incident sampleRequest 1 (Except.error "timeout")
        (fun _ _ _ => Except.ok sampleFix)).1
      = Except.error { status := 500, detail := "Analysis failed: timeout" } ∧
    (analyze_incident sampleRequest 1 (Except.ok sampleReply)
        (fun _ _ _ => Except.error "timeout")).1
      = Except.error { status := 500, detail := "Analysis failed: timeout" } ∧
    (analyze_incident sampleRequest 1 (Except.error "timeout")
        (fun _ _ _ => Except.ok sampleFix)).2 = [] :=
  ⟨rfl, rfl, rfl⟩

/-- Claim C2 (amended): when the reasoning-service call fails (timeout,
malformed reply, or any exception), `analyze_incident` fails with the
generic `HTTPException` of status 500 and free-text detail
"Analysis failed: <message>" — the same untyped error every other stage
failure produces, not a typed `ReasoningUnavailableError` — and no
IncidentRecord is persisted for that request. -/
theorem analyze_reasoning_failure_generic (req : AnalyzeRequest) (now : Nat)
    (e : String)
    (fixGen : String → String → String → Except String FixCode) :
    analyze_incident req now (Except.error e) fixGen
      = (Except.error { status := 500, detail := "Analysis failed: " ++ e },
         ([] : List StoredIncident)) := rfl

/-! ### Claim C3 -/

/-- Claim C3 counterexample: a metrics dict with `cpu_usage = 150` (a
percentage above 100) yields the feature value 150 unchanged —
`_prepare_features` performs no clamping to [0, 100]. -/
theorem features_unclamped_cex :
    featureVector [("cpu_usage", 150)] = [150, 0, 0, 0, 0, 0, 0] ∧
      ¬ ((150 : ℚ) ≤ 100) := by
  decide

/-- The fixed canonical metric-name order of `_prepare_features`. -/
def canonicalMetricNames : List String :=
  ["cpu_usage", "memory_usage", "response_time", "error_rate",
   "request_rate", "network_rx", "network_tx"]

/-- Claim C3 (amended): for every metric mapping with any subset of the
declared fields missing, feature extraction produces a feature vector of
exactly the fixed declared length (7 canonical metrics in fixed order),
with missing fields defaulted to 0; present values pass through
unchanged — no clamping to domain bounds is performed. -/
theorem features_shape (m : List (String × ℚ)) (mdata : List MetricSample) :
    (featureVector m).length = 7 ∧
    featureVector m = canonicalMetricNames.map (fun k => metricGet m k 0) ∧
    (∀ k, m.lookup k = none → metricGet m k 0 = 0) ∧
    (∀ k v, m.lookup k = some v → metricGet m k 0 = v) ∧
    (∀ row ∈ prepare_features mdata, row.length = 7) := by
  refine ⟨rfl, rfl, ?_, ?_, ?_⟩
  · intro k h
    simp [metricGet, h]
  · intro k v h
    simp [metricGet, h]
  · intro row hrow
    obtain ⟨ms, _, rfl⟩ := List.mem_map.mp hrow
    rfl

/-- Witness for C3's amended theorem at a concrete mapping with
`cpu_usage` missing and `memory_usage = 55`. -/
theorem features_shape_witness :
    metricGet [("memory_usage", (55 : ℚ))] "cpu_usage" 0 = 0 ∧
    metricGet [("memory_usage", (55 : ℚ))] "memory_usage" 0 = 55 :=
  ⟨(features_shape [("memory_usage", 55)] []).2.2.1 "cpu_usage" (by decide),
   (features_shape [("memory_usage", 55)] []).2.2.2.1 "memory_usage" 55
     (by decide)⟩

/-! ### Claim C4 -/

/-- Claim C4: for every parsed reasoning reply, the validating step
defaults any missing field rather than failing — a missing `root_cause`
defaults to "Unknown", a missing `severity` to "medium", a missing
`confidence` to 0.0 — `RCAAgent.analyze` succeeds on the defaulted
result, and the pipeline still completes (returns a response, not an
error). -/
theorem validate_defaults (r : ReasoningReply) (req : AnalyzeRequest)
    (now : Nat) (fx : FixCode) :
    (r.root_cause = none → (validateReply r).root_cause = "Unknown") ∧
    (r.severity = none → (validateReply r).severity = "medium") ∧
    (r.confidence = none → (validateReply r).confidence = 0) ∧
    rcaAnalyze (Except.ok r) = Except.ok (validateReply r) ∧
    (∃ resp,
      (analyze_incident req now (Except.ok r)
          (fun _ _ _ => Except.ok fx)).1 = Except.ok resp) := by
  refine ⟨?_, ?_, ?_, rfl, ⟨_, rfl⟩⟩
  · intro h
    simp [validateReply, h]
  · intro h
    simp [validateReply, h]
  · intro h
    simp [validateReply, h]

/-- A reasoning reply with every field missing. -/
def emptyReply : ReasoningReply :=
  { root_cause := none
    severity := none
    confidence := none
    impact_assessment := none
    contributing_factors := none
    timeline := none
    recommendations := none }

/-- Witness for C4 at the concrete reply with all fields missing. -/
theorem validate_defaults_witness :
    (validateReply emptyReply).root_cause = "Unknown" ∧
    (validateReply emptyReply).severity = "medium" ∧
    (validateReply emptyReply).confidence = 0 :=
  ⟨(validate_defaults emptyReply sampleRequest 0 sampleFix).1 rfl,
   (validate_defaults emptyReply sampleRequest 0 sampleFix).2.1 rfl,
   (validate_defaults emptyReply sampleRequest 0 sampleFix).2.2.1 rfl⟩

/-! ### Claim C5 -/

/-- Claim C5: anomaly scoring is deterministic — for every fitted
scaler/model pair (its transform, label and score functions) and every
fetched metric-data sequence, two runs of `predict` on identical input
yield identical (score, is_anomaly, confidence) for every output
element. -/
theorem predict_deterministic (scaler : List ℚ → List ℚ)
    (label : List ℚ → Int) (score_samples : List ℚ → ℚ)
    (d1 d2 : List MetricSample) (h : d1 = d2) (i : Nat) :
    ((predictOn scaler label score_samples d1)[i]?).map
        (fun v => (v.score, v.is_anomaly, v.confidence))
      = ((predictOn scaler label score_samples d2)[i]?).map
        (fun v => (v.score, v.is_anomaly, v.confidence)) := by
  subst h
  rfl

/-- A concrete metric sample (the scenario-A metrics at timestamp 0). -/
def sampleSample : MetricSample := { timestamp := 0, data := scenarioAMetrics }

/-- A concrete one-sample metric-data sequence. -/
def sampleMetricData : List MetricSample := [sampleSample]

/-- Witness for C5 at a concrete scaler/model and data sequence. -/
theorem predict_deterministic_witness :
    ((predictOn id (fun _ => -1) (fun _ => -2) sampleMetricData)[0]?).map
        (fun v => (v.score, v.is_anomaly, v.confidence))
      = ((predictOn id (fun _ => -1) (fun _ => -2) sampleMetricData)[0]?).map
        (fun v => (v.score, v.is_anomaly, v.confidence)) :=
  predict_deterministic id (fun _ => -1) (fun _ => -2) sampleMetricData
    sampleMetricData rfl 0

/-! ### Claim C6 -/

/-- Every verdict produced by `predict` has `confidence = |score|`, by
construction of the result dict. -/
theorem confidence_eq_abs_score {scaler : List ℚ → List ℚ}
    {label : List ℚ → Int} {score_samples : List ℚ → ℚ}
    {mdata : List MetricSample} {v : AnomalyVerdict}
    (hv : v ∈ predictOn scaler label score_samples mdata) :
    v.confidence = |v.score| := by
  simp only [predictOn, List.mem_map] at hv
  obtain ⟨p, _, rfl⟩ := hv
  rfl

/-- Claim C6: for every verdict produced by scoring, `confidence` is
non-negative, and confidence is monotone in `|score|` across any two
verdicts of a run: `|score₁| ≤ |score₂|` implies
`confidence₁ ≤ confidence₂`. -/
theorem verdict_confidence_monotone (scaler : List ℚ → List ℚ)
    (label : List ℚ → Int) (score_samples : List ℚ → ℚ)
    (mdata : List MetricSample) (v₁ v₂ : AnomalyVerdict)
    (h₁ : v₁ ∈ predictOn scaler label score_samples mdata)
    (h₂ : v₂ ∈ predictOn scaler label score_samples mdata) :
    0 ≤ v₁.confidence ∧
      (|v₁.score| ≤ |v₂.score| → v₁.confidence ≤ v₂.confidence) := by
  constructor
  · rw [confidence_eq_abs_score h₁]
    exact abs_nonneg _
  · intro h
    rw [confidence_eq_abs_score h₁, confidence_eq_abs_score h₂]
    exact h

/-- Witness for C6 at a concrete run producing one verdict of score −2
and confidence 2. -/
theorem verdict_confidence_monotone_witness :
    0 ≤ (mkVerdict sampleSample (-1) (-2)).confidence ∧
    (mkVerdict sampleSample (-1) (-2)).confidence
      ≤ (mkVerdict sampleSample (-1) (-2)).confidence :=
  have h := verdict_confidence_monotone id (fun _ => -1) (fun _ => -2)
    sampleMetricData (mkVerdict sampleSample (-1) (-2))
    (mkVerdict sampleSample (-1) (-2)) (List.Mem.head _) (List.Mem.head _)
  ⟨h.1, h.2 (le_refl _)⟩

/-! ### Claim C7 -/

/-- Taking the last `n` elements is idempotent. -/
theorem lastN_lastN (n : Nat) (l : List α) : lastN n (lastN n l) = lastN n l := by
  unfold lastN
  rw [List.length_drop]
  have h : l.length - (l.length - n) - n = 0 := by omega
  rw [h, List.drop_zero]

/-- The log block depends only on the last 50 log lines. -/
theorem logsSection_lastN (logs : List String) :
    logsSection (lastN 50 logs) = logsSection logs := by
  unfold logsSection
  rw [lastN_lastN]

/-- The trace block depends only on the first 10 trace records. -/
theorem tracesSection_take {τ : Type} (dt : List τ → String)
    (tr : Option (List τ)) :
    tracesSection dt (tr.map (List.take 10)) = tracesSection dt tr := by
  cases tr with
  | none => rfl
  | some ts =>
    cases ts with
    | nil => rfl
    | cons a t =>
      simp [tracesSection, List.take_take]

/-- The similar-incidents block depends only on the first 3 entries. -/
theorem similarSection_take (sim : Option (List SimilarIncident)) :
    similarSection (sim.map (List.take 3)) = similarSection sim := by
  cases sim with
  | none => rfl
  | some ss =>
    cases ss with
    | nil => rfl
    | cons a t =>
      simp [similarSection, List.take_take]

/-- Claim C7: context assembly is a pure, deterministic function of
(metrics, logs, traces, similar_incidents) — it is a Lean function, and
its output coincides with its output on the truncated inputs, so the
document includes at most the last 50 log lines, at most the first 10
trace records, and at most the first 3 similar incidents; those slices
have the stated size bounds. -/
theorem prepare_context_bounded {μ τ : Type} (dm : μ → String)
    (dt : List τ → String) (metrics : μ) (logs : List String)
    (traces : Option (List τ)) (similar_incidents : Option (List SimilarIncident)) :
    prepare_context dm dt metrics logs traces similar_incidents
      = prepare_context dm dt metrics (lastN 50 logs)
          (traces.map (List.take 10)) (similar_incidents.map (List.take 3)) ∧
    (lastN 50 logs).length ≤ 50 ∧
    (∀ ts : List τ, (ts.take 10).length ≤ 10) ∧
    (∀ ss : List SimilarIncident, (ss.take 3).length ≤ 3) := by
  refine ⟨?_, ?_, ?_, ?_⟩
  · unfold prepare_context prepareContextParts
    rw [logsSection_lastN, tracesSection_take, similarSection_take]
  · unfold lastN
    rw [List.length_drop]
    omega
  · intro ts
    exact List.length_take_le 10 ts
  · intro ss
    exact List.length_take_le 3 ss

/-! ### Claim C8 -/

/-- Claim C8: for every metrics mapping, a non-anomalous verdict gets
exactly the fixed message "No action required - metrics within normal
range"; the memory branch fires whenever `memory_usage > 85`, so the
memory-pressure message is among the recommendations; and on scenario A's
metrics (memory_usage 92) the anomalous recommendation is the four fired
threshold messages joined with " | ", which mentions memory pressure. -/
theorem recommendation_messages :
    (∀ m : List (String × ℚ), get_recommendation false m = noActionMsg) ∧
    (∀ m : List (String × ℚ),
      85 < metricGet m "memory_usage" 0 → memMsg ∈ recommendationsFor m) ∧
    get_recommendation true scenarioAMetrics
      = cpuMsg ++ " | " ++ (memMsg ++ " | " ++ (rtMsg ++ " | " ++ errMsg)) := by
  have hcpu : (80 : ℚ) < metricGet scenarioAMetrics "cpu_usage" 0 := by
    show (80 : ℚ) < 95
    norm_num
  have hmem : (85 : ℚ) < metricGet scenarioAMetrics "memory_usage" 0 := by
    show (85 : ℚ) < 92
    norm_num
  have hrt : (1000 : ℚ) < metricGet scenarioAMetrics "response_time" 0 := by
    show (1000 : ℚ) < 3500
    norm_num
  have herr : (5/100 : ℚ) < metricGet scenarioAMetrics "error_rate" 0 := by
    show (5/100 : ℚ) < 12/100
    norm_num
  have hrecs : recommendationsFor scenarioAMetrics
      = [cpuMsg, memMsg, rtMsg, errMsg] := by
    unfold recommendationsFor
    rw [if_pos hcpu, if_pos hmem, if_pos hrt, if_pos herr]
    rfl
  refine ⟨fun m => rfl, ?_, ?_⟩
  · intro m h
    unfold recommendationsFor
    rw [if_pos h]
    exact List.mem_append_right _
      (List.mem_append_left _ (List.mem_singleton_self _))
  · show (if (recommendationsFor scenarioAMetrics).isEmpty then fallbackMsg
        else String.intercalate " | " (recommendationsFor scenarioAMetrics)) = _
    rw [hrecs]
    rfl

/-- Witness for C8 at scenario A's metrics (memory_usage 92 > 85). -/
theorem recommendation_messages_witness :
    memMsg ∈ recommendationsFor scenarioAMetrics :=
  recommendation_messages.2.1 scenarioAMetrics (by decide)

/-! ### Claim C9 -/

/-- Claim C9 (spec-modelled remediation generator): `apply_fix` is
idempotent per (incident_id, fix_type) — a second call with the same key
returns the identical RemediationArtifact and leaves the generator state
(including the side-effect log) unchanged, and the first call on an
uncached key executes the side effect exactly once. -/
theorem apply_fix_idempotent (incident_id fix_type : String)
    (st : FixGeneratorState) :
    (apply_fix incident_id fix_type (apply_fix incident_id fix_type st).2).1
        = (apply_fix incident_id fix_type st).1 ∧
    (apply_fix incident_id fix_type (apply_fix incident_id fix_type st).2).2
        = (apply_fix incident_id fix_type st).2 ∧
    (st.cache.lookup (incident_id, fix_type) = none →
      (apply_fix incident_id fix_type st).2.side_effects
        = (incident_id, fix_type) :: st.side_effects) := by
  cases h : st.cache.lookup (incident_id, fix_type) with
  | none =>
    refine ⟨?_, ?_, fun _ => ?_⟩ <;> simp [apply_fix, h, List.lookup]
  | some a =>
    refine ⟨?_, ?_, fun hn => ?_⟩
    · simp [apply_fix, h]
    · simp [apply_fix, h]
    · exact Option.noConfusion hn

/-- Witness for C9 at a concrete key and the empty initial state. -/
theorem apply_fix_idempotent_witness :
    (apply_fix "INC-2024-001" "restart_service"
        (apply_fix "INC-2024-001" "restart_service" ⟨[], []⟩).2).1
      = (apply_fix "INC-2024-001" "restart_service" ⟨[], []⟩).1 ∧
    (apply_fix "INC-2024-001" "restart_service"
        (⟨[], []⟩ : FixGeneratorState)).2.side_effects
      = [("INC-2024-001", "restart_service")] :=
  have h := apply_fix_idempotent "INC-2024-001" "restart_service" ⟨[], []⟩
  ⟨h.1, h.2.2 rfl⟩

/-! ### Claim C10 -/

/-- Claim C10: for every reasoning-service reply that parses as JSON,
the pipeline returns the reply's `severity` and `confidence` values
unchanged, with no validation that the severity is one of the four
allowed labels or that the confidence lies in [0, 1]: any string
severity and any rational confidence (the witness uses "catastrophic"
and 5) passes through `validateReply` and `analyze_incident` to the
final response. -/
theorem severity_confidence_passthrough (r : ReasoningReply) (s : String)
    (c : ℚ) (req : AnalyzeRequest) (now : Nat) (fx : FixCode)
    (hs : r.severity = some s) (hc : r.confidence = some c) :
    (validateReply r).severity = s ∧ (validateReply r).confidence = c ∧
    (∃ resp,
      (analyze_incident req now (Except.ok r)
          (fun _ _ _ => Except.ok fx)).1 = Except.ok resp ∧
      resp.severity = s ∧ resp.confidence = c) := by
  refine ⟨?_, ?_, ⟨_, rfl, ?_, ?_⟩⟩
  · simp [validateReply, hs]
  · simp [validateReply, hc]
  · simp [validateReply, hs]
  · simp [validateReply, hc]

/-- A reasoning reply carrying an out-of-enum severity and an
out-of-range confidence. -/
def bogusReply : ReasoningReply :=
  { root_cause := some "Memory leak"
    severity := some "catastrophic"
    confidence := some 5
    impact_assessment := some "High"
    contributing_factors := some []
    timeline := some []
    recommendations := some [] }

/-- Witness for C10: severity "catastrophic" (not in the enum) and
confidence 5 (outside [0, 1]) pass through unchanged. -/
theorem severity_confidence_passthrough_witness :
    (validateReply bogusReply).severity = "catastrophic" ∧
    (validateReply bogusReply).confidence = 5 :=
  have h := severity_confidence_passthrough bogusReply "catastrophic" 5
    sampleRequest 0 sampleFix rfl rfl
  ⟨h.1, h.2.1⟩

end AIOps
